import Mathlib

/-
Verification development for the CCI messaging layer.

Shallow embedding of:
  - the shared status and connection-attribute enums of cci.h;
  - the sock transport (src/plugins/core/sock/core_sock_api.c): the
    reliability classification used by sock_sendv and sock_progress_queued,
    the idle-TX pool allocation of sock_sendv and sock_connect, the
    per-descriptor bodies of sock_progress_queued and sock_progress_pending,
    the URI handling of sock_getaddrinfo, the two-level ID bitmap
    (sock_get_id and sock_put_id), and the sock_rma entry point;
  - the ccieth Ethernet driver receive path
    (contrib/driver/ccieth/linux/ccieth_recv.c).

Modelling conventions, noted where they apply:
  - C enum values are carried explicitly (ConnAttr.val) because the code
    applies bitwise operators to them.
  - Two reads of uninitialized C variables in core_sock_api.c are modelled
    by their evident intent: the tx pointer tested at lines 632 and 1141 is
    declared without an initializer, so the null test there is modelled as
    the intended pool-empty test, and the pack at line 1108 that goes
    through the uninitialized tx pointer is modelled as packing into the
    freshly allocated temporary buffer that the path then transmits.
  - sock_sendto (lines 780-804) returns the positive byte count of the
    last sendto on success and a positive errno on failure; it returns 0
    only for an empty buffer, which cannot occur since every packet starts
    with the sock header.  The ret == 0 early return at line 1127 is
    therefore dead code: the unreliable direct write is a pure network side
    effect and sock_sendv always falls through to the idle-TX allocator.
  - Constants that live in headers absent from the sources (SOCK_BLOCK_SIZE,
    SOCK_PROG_FREQ, SOCK_RESEND_TIME, the ccieth wire-header size) are
    either fixed from the spec (block width 64, matching the uint64_t block
    words the code manipulates) or kept as explicit parameters.
-/

namespace CCI

/-- Status codes from the cci_status enum of cci.h (the subset this
development needs); SUCCESS is 0 and the errno-derived codes keep their
identity as distinct constructors. -/
inductive Status
  | SUCCESS
  | ERROR
  | ERR_DISCONNECTED
  | ERR_RNR
  | ERR_NOT_IMPLEMENTED
  | EINVAL
  | ETIMEDOUT
  | ENOMEM
  | ENODEV
  | ENOBUFS
  | EMSGSIZE
deriving DecidableEq

/-- Connection attributes from the cci_conn_attribute enum of cci.h. -/
inductive ConnAttr
  | RO
  | RU
  | UU
  | UU_MC_TX
  | UU_MC_RX
deriving DecidableEq

/-- Numeric values of the cci_conn_attribute enum constants: C assigns
consecutive values starting at 0, so CCI_CONN_ATTR_RO = 0. -/
def ConnAttr.val : ConnAttr → Nat
  | .RO => 0
  | .RU => 1
  | .UU => 2
  | .UU_MC_TX => 3
  | .UU_MC_RX => 4

/-- CCI_FLAG_SILENT = (1 << 3), cci.h. -/
def CCI_FLAG_SILENT : Nat := 8

/-- CCI_FLAG_WRITE = (1 << 5), cci.h, for RMA. -/
def CCI_FLAG_WRITE : Nat := 32

end CCI

namespace Sock

/-- Reliability test exactly as core_sock_api.c writes it (line 1094 in
sock_sendv and line 1007 in sock_progress_queued):
connection attribute AND CCI_CONN_ATTR_RO, OR-ed with attribute AND
CCI_CONN_ATTR_RU, where the attributes are the enum values above.
Because CCI_CONN_ATTR_RO is 0, the first conjunct is always 0. -/
def is_reliable (a : CCI.ConnAttr) : Bool :=
  (a.val &&& CCI.ConnAttr.RO.val != 0) || (a.val &&& CCI.ConnAttr.RU.val != 0)

/-- Reliability in the words of the spec (section 4.2: the reliable engine
covers RO and RU). Stated for comparison with is_reliable above. -/
def cci_reliable (a : CCI.ConnAttr) : Bool :=
  a = CCI.ConnAttr.RO || a = CCI.ConnAttr.RU

/-- Message types a tx descriptor can carry in core_sock_api.c: the file
creates SOCK_MSG_SEND (sock_sendv line 1145), SOCK_MSG_CONN_REQUEST
(sock_connect line 636), and sock_progress_queued also switches on
SOCK_MSG_CONN_REPLY and SOCK_MSG_CONN_ACK. -/
inductive SockMsgType
  | SEND
  | CONN_REQUEST
  | CONN_REPLY
  | CONN_ACK
deriving DecidableEq

/-- TX descriptor states of core_sock.h as used in core_sock_api.c:
SOCK_TX_IDLE, SOCK_TX_QUEUED, SOCK_TX_PENDING, SOCK_TX_COMPLETED. -/
inductive TxState
  | IDLE
  | QUEUED
  | PENDING
  | COMPLETED
deriving DecidableEq

/-- The tx-descriptor fields that the progress passes read and write:
message type, the send flags, the cycle and resend counters, and the
descriptor state. -/
structure Tx where
  msgType : SockMsgType
  flags : Nat
  cycles : Nat
  resends : Nat
  state : TxState
deriving DecidableEq

/-- Effective send timeout computed by sock_progress_queued (line 937):
the connection timeout when non-zero, the endpoint timeout otherwise. -/
def sock_timeout (connTimeout epTimeout : Nat) : Nat :=
  if connTimeout ≠ 0 then connTimeout else epTimeout

/-- Result of the modelled sock_sendv call: the returned status, whether a
tx descriptor was enqueued on the device queued list, and the idle-TX pool
afterwards. -/
structure SendvEffects where
  result : CCI.Status
  txQueued : Bool
  idleTxs : List Nat
deriving DecidableEq

/-- sock_sendv, core_sock_api.c lines 1050-1247, as a function of the data
that steers its control flow.  validSegs is the segment validation of lines
1078-1082 (a null data pointer with a non-zero length gives CCI_EINVAL);
hl + dl over the connection max_send_size gives CCI_EMSGSIZE (line 1084);
is_reliable is the bitwise attribute test of line 1094; on the unreliable
path the packet is packed into a temporary buffer (callocOk is that
allocation, CCI_ENOMEM on failure, line 1105) and written to the wire once,
but since sock_sendto returns a positive byte count on success and a
positive errno on failure the ret == 0 early return at line 1127 never
fires, so every path falls through to the idle-TX allocator: the head of
the idle pool is popped (lines 1134-1139), CCI_ENOBUFS is returned when the
pool is empty (line 1141), and otherwise the descriptor is queued on the
device queued list (lines 1208-1211) and CCI_SUCCESS returned. -/
def sock_sendv (a : CCI.ConnAttr) (validSegs : Bool) (hl dl mss : Nat)
    (callocOk : Bool) (idle : List Nat) : SendvEffects :=
  if validSegs = false then
    { result := CCI.Status.EINVAL, txQueued := false, idleTxs := idle }
  else if mss < hl + dl then
    { result := CCI.Status.EMSGSIZE, txQueued := false, idleTxs := idle }
  else if is_reliable a = false ∧ callocOk = false then
    { result := CCI.Status.ENOMEM, txQueued := false, idleTxs := idle }
  else
    match idle with
    | [] => { result := CCI.Status.ENOBUFS, txQueued := false, idleTxs := [] }
    | _ :: rest => { result := CCI.Status.SUCCESS, txQueued := true, idleTxs := rest }

/-- Effects of one sock_progress_queued loop body (core_sock_api.c lines
907-1019) on a single queued descriptor.  removedFromQueued records whether
the body took the descriptor off the device queued list; eventsQueued counts
insertions of the completion event onto the endpoint event queue. -/
structure QueuedTxEffects where
  tx : Tx
  removedFromQueued : Bool
  reinsertedAtHead : Bool
  passAborted : Bool
  addedToPending : Bool
  returnedToIdle : Bool
  eventsQueued : Nat
deriving DecidableEq

/-- One iteration of the sock_progress_queued walk for a given descriptor,
lines 907-1019.  The TAILQ_REMOVE of the descriptor from the queued list is
commented out in the source (line 910, under a FIXME), so no branch ever
sets removedFromQueued.  The body increments cycles and skips work unless
cycles is a multiple of SOCK_PROG_FREQ (progFreq); it then increments
resends and, when resends * SOCK_RESEND_TIME reaches the effective timeout,
completes the descriptor (back to the idle pool for a SILENT SOCK_MSG_SEND,
otherwise a completion event) WITHOUT a continue, so the body still writes
the packet to the wire afterwards; a failed write re-inserts the descriptor
at the head of the queued list and aborts the pass (lines 985-991); after a
successful write the descriptor is appended to the device pending list when
the attribute test of line 1007 says reliable, else it is completed with an
event (lines 1013-1018) while remaining on the queued list. -/
def sock_progress_queued_tx (progFreq resendTime connTimeout epTimeout : Nat)
    (a : CCI.ConnAttr) (sendOk : Bool) (tx : Tx) : QueuedTxEffects :=
  let tx1 : Tx := { tx with cycles := tx.cycles + 1 }
  if tx1.cycles % progFreq ≠ 0 then
    { tx := tx1, removedFromQueued := false, reinsertedAtHead := false,
      passAborted := false, addedToPending := false, returnedToIdle := false,
      eventsQueued := 0 }
  else
    let tx2 : Tx := { tx1 with resends := tx1.resends + 1 }
    let timeout := sock_timeout connTimeout epTimeout
    let timedOut : Bool := decide (tx2.resends * resendTime ≥ timeout)
    let silent : Bool :=
      decide (tx2.msgType = SockMsgType.SEND) && (tx2.flags &&& CCI.CCI_FLAG_SILENT != 0)
    let tx3 : Tx :=
      if timedOut then
        if silent then { tx2 with state := TxState.IDLE }
        else { tx2 with state := TxState.COMPLETED }
      else tx2
    let ev1 : Nat := if timedOut && !silent then 1 else 0
    let idle1 : Bool := timedOut && silent
    if sendOk = false then
      { tx := tx3, removedFromQueued := false, reinsertedAtHead := true,
        passAborted := true, addedToPending := false, returnedToIdle := idle1,
        eventsQueued := ev1 }
    else if is_reliable a then
      { tx := { tx3 with state := TxState.PENDING }, removedFromQueued := false,
        reinsertedAtHead := false, passAborted := false, addedToPending := true,
        returnedToIdle := idle1, eventsQueued := ev1 }
    else
      { tx := { tx3 with state := TxState.COMPLETED }, removedFromQueued := false,
        reinsertedAtHead := false, passAborted := false, addedToPending := false,
        returnedToIdle := idle1, eventsQueued := ev1 + 1 }

/-- Effects of one sock_progress_pending loop body (core_sock_api.c lines
826-885) on a single in-flight descriptor. -/
structure PendingTxEffects where
  tx : Tx
  removedFromPending : Bool
  eventStatus : Option CCI.Status
  passAborted : Bool
deriving DecidableEq

/-- One iteration of the sock_progress_pending walk for a given descriptor,
lines 826-885: cycles and resends are incremented unconditionally (the
cycles-per-resend division is still a TODO in the source); the descriptor
expires when resends reaches the endpoint timeout OR the connection timeout
(lines 844-845, comparing the resend count directly against each timeout
value), in which case it is dequeued from the pending list and completed
with CCI_ETIMEDOUT; otherwise it is written to the wire, and a failed write
aborts the pass. -/
def sock_progress_pending_tx (epTimeout connTimeout : Nat) (sendOk : Bool)
    (tx : Tx) : PendingTxEffects :=
  let tx1 : Tx := { tx with cycles := tx.cycles + 1, resends := tx.resends + 1 }
  if tx1.resends ≥ epTimeout ∨ tx1.resends ≥ connTimeout then
    { tx := tx1, removedFromPending := true,
      eventStatus := some CCI.Status.ETIMEDOUT, passAborted := false }
  else if sendOk = false then
    { tx := tx1, removedFromPending := false, eventStatus := none,
      passAborted := true }
  else
    { tx := tx1, removedFromPending := false, eventStatus := none,
      passAborted := false }

/-- SOCK_BLOCK_SIZE.  Modelled from the spec: core_sock.h is absent from the
sources; the spec describes a two-level bitmap (block index + offset) and
the code walks uint64_t block words (sock_get_id declares uint64_t *b), so
the block width is 64. -/
def SOCK_BLOCK_SIZE : Nat := 64

/-- Value of the C expression (uint64_t)(1 << offset) as core_sock_api.c
uses it against the uint64_t block words: the shifted 1 has type int, so
for offset below 31 the value is 2 ^ offset, for offset 31 the int result
is INT_MIN and the conversion to the 64-bit unsigned word sign-extends it
to 0xFFFFFFFF80000000, and for offset 32 and above the C shift is undefined
(the model returns 0 there; no theorem below depends on that branch). -/
def cIntShl1 (off : Nat) : Nat :=
  if off < 31 then 2 ^ off
  else if off = 31 then 2 ^ 64 - 2 ^ 31
  else 0

/-- Value of the C expression (uint64_t)(~(1 << offset)) used by
sock_put_id to clear a bit: for offset below 31 the int complement is
negative and sign-extends to all-ones-minus-the-bit; for offset 31 the
complement of INT_MIN is INT_MAX, i.e. only bits 0..30 remain set; offset
32 and above is undefined in C (the model returns 0 there). -/
def cIntNotShl1 (off : Nat) : Nat :=
  if off < 31 then (2 ^ 64 - 1) - 2 ^ off
  else if off = 31 then 2 ^ 31 - 1
  else 0

/-- One probe of the sock_get_id allocation loop (core_sock_api.c lines
507-526) at the random draw n: block and offset are n divided by and modulo
SOCK_BLOCK_SIZE, and when the bit is clear in the block word the code sets
it and returns block * SOCK_BLOCK_SIZE + offset as the ID; when the bit is
set the C while loop redraws n, which the model reports as none.  The
bitmap is the array of block words allocated zeroed at endpoint creation
(sock_create_endpoint line 302). -/
def sock_get_id_step (ids : List Nat) (n : Nat) : Option (List Nat × Nat) :=
  let block := n / SOCK_BLOCK_SIZE
  let offset := n % SOCK_BLOCK_SIZE
  let b := ids.getD block 0
  if b &&& cIntShl1 offset = 0 then
    some (ids.set block (b ||| cIntShl1 offset), block * SOCK_BLOCK_SIZE + offset)
  else
    none

/-- The condition of the assert in sock_put_id (core_sock_api.c line 538),
exactly as written: (*b & (1 << offset)) == 1, i.e. the masked block word
compared against the constant 1. -/
def sock_put_id_assert (ids : List Nat) (id : Nat) : Bool :=
  (ids.getD (id / SOCK_BLOCK_SIZE) 0) &&& cIntShl1 (id % SOCK_BLOCK_SIZE) == 1

/-- The bit-clearing write of sock_put_id (core_sock_api.c line 539):
*b &= ~(1 << offset). -/
def sock_put_id (ids : List Nat) (id : Nat) : List Nat :=
  let block := id / SOCK_BLOCK_SIZE
  ids.set block ((ids.getD block 0) &&& cIntNotShl1 (id % SOCK_BLOCK_SIZE))

/-- Hostname extraction of sock_getaddrinfo (core_sock_api.c lines
473-505), over the character sequence of the URI: only a URI whose first
five characters are ip:// is accepted (strncmp, line 479; anything else
returns CCI_EINVAL, line 482); the code then looks up the first colon of
the remainder with strchr but assigns the null character to the POINTER
VARIABLE (colon = the null character, line 486) instead of writing through
it, so the string passed on to getaddrinfo is the remainder unchanged, port
suffix included. -/
def sock_getaddrinfo_hostname (uri : List Char) : Except CCI.Status (List Char) :=
  if uri.take 5 = ['i', 'p', ':', '/', '/'] then Except.ok (uri.drop 5)
  else Except.error CCI.Status.EINVAL

/-- Host component of an ip:// URI as the spec intends it resolved
(section 6, URI scheme: the host part of transport://host:port), i.e. the
remainder after the scheme up to the first colon.  Stated for comparison
with sock_getaddrinfo_hostname above. -/
def uri_host_component (uri : List Char) : List Char :=
  (uri.drop 5).takeWhile (fun c => c ≠ ':')

/-- Result of the modelled sock_connect call: the synchronous status (none
stands for the un-modelled continuation of the sock_get_id retry loop when
the probed bit was already set), the idle-TX pool and ID bitmap afterwards,
and whether a CONN_REQUEST descriptor was enqueued on the device. -/
structure ConnectEffects where
  result : Option CCI.Status
  idleTxs : List Nat
  ids : List Nat
  queuedTx : Bool
deriving DecidableEq

/-- sock_connect, core_sock_api.c lines 544-704, as a function of the data
that steers its control flow.  uriOk is the outcome of sock_getaddrinfo
(failure propagates its status, modelled as CCI_EINVAL, before any endpoint
state is touched); the call then pops the head of the idle-TX pool (lines
625-630) and returns CCI_ENOBUFS when the pool is empty (line 633) with the
pool, the ID bitmap and the device queue untouched; on success it allocates
a connection ID from the bitmap (sock_get_id, line 649, at draw n) and
queues the CONN_REQUEST descriptor on the device queued list
(lines 684-687). -/
def sock_connect (uriOk : Bool) (n : Nat) (idle ids : List Nat) : ConnectEffects :=
  if uriOk = false then
    { result := some CCI.Status.EINVAL, idleTxs := idle, ids := ids, queuedTx := false }
  else
    match idle with
    | [] =>
      { result := some CCI.Status.ENOBUFS, idleTxs := idle, ids := ids, queuedTx := false }
    | _ :: rest =>
      match sock_get_id_step ids n with
      | some (ids2, _) =>
        { result := some CCI.Status.SUCCESS, idleTxs := rest, ids := ids2, queuedTx := true }
      | none =>
        { result := none, idleTxs := rest, ids := ids, queuedTx := false }

/-- sock_rma, core_sock_api.c lines 1287-1299: after the sglobals null
check (CCI_ENODEV) the function unconditionally returns
CCI_ERR_NOT_IMPLEMENTED; no argument is inspected and no byte of either
region is read or written.  The model carries the remote region through
unchanged to make that explicit. -/
def sock_rma (sglobalsInit : Bool) (_localMem remoteMem : List Nat)
    (_localOffset _remoteOffset _len _flags : Nat) : CCI.Status × List Nat :=
  if sglobalsInit = false then (CCI.Status.ENODEV, remoteMem)
  else (CCI.Status.ERR_NOT_IMPLEMENTED, remoteMem)

end Sock

namespace Ccieth

/-- Linux errno value ENOMEM = 12. -/
def ENOMEM : Int := 12

/-- Linux errno value EINVAL = 22. -/
def EINVAL : Int := 22

/-- Linux errno value EFAULT = 14 (what skb_copy_bits reports when the
requested window is not contained in the skb). -/
def EFAULT : Int := 14

/-- Connection status of a ccieth connection.  Modelled from the spec
(section 3, status transitions INIT, REQUESTED, READY, REJECTED, FAILED,
DISCONNECTED): the enum itself lives in ccieth_common.h, which is absent
from the sources; ccieth_recv.c tests CCIETH_CONNECTION_READY and
CCIETH_CONNECTION_REQUESTED. -/
inductive ConnStatus
  | INIT
  | REQUESTED
  | READY
  | REJECTED
  | FAILED
  | DISCONNECTED
deriving DecidableEq

/-- Connection attribute of a ccieth connection (ccieth_recv.c tests
CCIETH_CONNECT_ATTR_UU; the attribute set RO, RU, UU is the one the spec
gives for non-multicast connections). -/
inductive ConnectAttr
  | RO
  | RU
  | UU
deriving DecidableEq

/-- Wire reply packets, from the packet taxonomy of the spec (section 3);
only the RNR NACK shape is needed, to express which replies a receive
routine emits.  ccieth_recv.c transmits nothing, so the model routines
always produce an empty reply list. -/
inductive WirePacket
  | rnrNack (seq : Nat)
deriving DecidableEq

/-- A receive event as ccieth__recv_msg builds it: the declared data
length, the copied payload bytes, and the user connection ID. -/
structure Event where
  dataLength : Nat
  payload : List Nat
  userConnId : Nat
deriving DecidableEq

/-- The ccieth endpoint state the receive path touches: max_send_size, the
free-event list (modelled by its length) and the ready event list. -/
structure Ep where
  maxSendSize : Nat
  freeEvents : Nat
  events : List Event
deriving DecidableEq

/-- The ccieth connection state the receive path touches: status,
attribute, user connection ID, and the deferred-RX list that
ccieth_conn_uu_defer_recv_msg appends to (that helper is not among the
sources; its effect, parking the skb on the per-connection deferred list,
is modelled from the spec, section 3, deferred-RX list, UU pre-handshake). -/
structure Conn where
  status : ConnStatus
  attr : ConnectAttr
  userConnId : Nat
  deferredRx : List (List Nat)
deriving DecidableEq

/-- The MSG wire header fields that ccieth_recv_msg decodes with ntohl from
the leading bytes of the frame (dst_ep_id, dst_conn_id, msg_seqnum,
msg_len).  The model keeps the decoded header beside the raw frame bytes;
the length checks below inspect the raw frame length, as the code does. -/
structure MsgHdr where
  dstEpId : Nat
  dstConnId : Nat
  msgSeqnum : Nat
  msgLen : Nat
deriving DecidableEq

/-- Outcome of a receive routine: the returned error code, the endpoint and
connection afterwards, the wire replies emitted, and whether the BUG_ON
after skb_copy_bits tripped. -/
structure RecvOutcome where
  ret : Int
  ep : Option Ep
  conn : Option Conn
  replies : List WirePacket
  bugTripped : Bool
deriving DecidableEq

/-- skb_copy_bits, a Linux kernel routine external to this repository, with
its documented semantics: copy len bytes of the skb starting at offset,
failing (with -EFAULT) exactly when offset + len exceeds the skb length. -/
def skb_copy_bits (skb : List Nat) (offset len : Nat) : Option (List Nat) :=
  if offset + len ≤ skb.length then some ((skb.drop offset).take len) else none

/-- ccieth__recv_msg, ccieth_recv.c lines 15-55: when the free event list
is empty the packet is dropped and -ENOMEM returned (lines 26-30, no reply
of any kind is transmitted); otherwise an event slot is taken, msg_len
payload bytes are copied out of the skb starting after the header
(skb_copy_bits, line 39) with BUG_ON(err < 0) (line 40), and the finished
RECV event is appended to the endpoint event list. -/
def ccieth__recv_msg (hdrSize : Nat) (ep : Ep) (conn : Conn) (hdr : MsgHdr)
    (skb : List Nat) : RecvOutcome :=
  if ep.freeEvents = 0 then
    { ret := -ENOMEM, ep := some ep, conn := some conn, replies := [],
      bugTripped := false }
  else
    match skb_copy_bits skb hdrSize hdr.msgLen with
    | none =>
      { ret := -EFAULT, ep := some ep, conn := some conn, replies := [],
        bugTripped := true }
    | some payload =>
      { ret := 0,
        ep := some { ep with
          freeEvents := ep.freeEvents - 1,
          events := ep.events ++
            [{ dataLength := hdr.msgLen, payload := payload,
               userConnId := conn.userConnId }] },
        conn := some conn, replies := [], bugTripped := false }

/-- ccieth_recv_msg, ccieth_recv.c lines 57-118: the full header must be
present in the frame (skb_header_pointer, lines 71-73), the endpoint must
exist (line 86, the idr lookup and interface check are folded into the
optional ep argument), the declared payload must fit (lines 91-93: drop
when msg_len exceeds max_send_size or the frame is shorter than header plus
msg_len), the connection must exist (lines 97-99), and the packet is then
dispatched on the connection status (lines 101-108): READY delivers through
ccieth__recv_msg, REQUESTED with the UU attribute defers the skb on the
connection, anything else is dropped with -EINVAL and no event. -/
def ccieth_recv_msg (hdrSize : Nat) (epOpt : Option Ep) (connOpt : Option Conn)
    (hdr : MsgHdr) (skb : List Nat) : RecvOutcome :=
  if skb.length < hdrSize then
    { ret := -EINVAL, ep := epOpt, conn := connOpt, replies := [], bugTripped := false }
  else
    match epOpt with
    | none =>
      { ret := -EINVAL, ep := none, conn := connOpt, replies := [], bugTripped := false }
    | some ep =>
      if hdr.msgLen > ep.maxSendSize ∨ skb.length < hdrSize + hdr.msgLen then
        { ret := -EINVAL, ep := some ep, conn := connOpt, replies := [],
          bugTripped := false }
      else
        match connOpt with
        | none =>
          { ret := -EINVAL, ep := some ep, conn := none, replies := [],
            bugTripped := false }
        | some conn =>
          if conn.status = ConnStatus.READY then
            ccieth__recv_msg hdrSize ep conn hdr skb
          else if conn.status = ConnStatus.REQUESTED ∧ conn.attr = ConnectAttr.UU then
            { ret := 0, ep := some ep,
              conn := some { conn with deferredRx := conn.deferredRx ++ [skb] },
              replies := [], bugTripped := false }
          else
            { ret := -EINVAL, ep := some ep, conn := some conn, replies := [],
              bugTripped := false }

end Ccieth

/-- Helper: every branch of ccieth_recv_msg other than the READY dispatch
leaves the endpoint untouched, so a delivered RECV event (a changed
endpoint) implies the connection was READY. -/
theorem ccieth_recv_msg_ep_unchanged_of_not_ready (hdrSize : Nat) (ep : Ccieth.Ep)
    (conn : Ccieth.Conn) (hdr : Ccieth.MsgHdr) (skb : List Nat)
    (h : conn.status ≠ Ccieth.ConnStatus.READY) :
    (Ccieth.ccieth_recv_msg hdrSize (some ep) (some conn) hdr skb).ep = some ep := by
  simp only [Ccieth.ccieth_recv_msg]
  split_ifs with h1 h2 h3 <;> rfl

/-- C1: for every rma() READ or WRITE on a reliable connection the claim
says the bytes transferred equal the bytes of the target region in the
intersected offset range.  The sock transport's rma entry point is a stub:
with sglobals initialized it returns CCI_ERR_NOT_IMPLEMENTED and moves no
bytes, so for a WRITE of one byte (local region holding 1, remote region
holding 0) the remote region is unchanged and differs from the local slice,
and the non-SUCCESS return makes the rma_verify test exit at check_return. -/
theorem claim_C1_rma_stub_no_transfer :
    Sock.sock_rma true [1] [0] 0 0 1 CCI.CCI_FLAG_WRITE
      = (CCI.Status.ERR_NOT_IMPLEMENTED, [0])
  ∧ CCI.Status.ERR_NOT_IMPLEMENTED ≠ CCI.Status.SUCCESS
  ∧ ([0] : List Nat) ≠ [1] := by
  exact ⟨rfl, by decide, by decide⟩

/-- C2: the claim says every successful send on a reliable (RO or RU)
connection eventually yields exactly one SEND event (unless SILENT), with
status in the allowed set.  An RO send with a TX available returns
CCI_SUCCESS and queues its descriptor, but the descriptor is never removed
from the device queued list (the TAILQ_REMOVE at line 910 is commented out)
and the bitwise attribute test classifies RO (enum value 0) as unreliable,
so the unreliable completion branch of sock_progress_queued queues a SEND
completion event on EVERY eligible pass: two successive passes below each
queue one event for the same descriptor, refuting exactly-one.  Moreover
the pending pass has no SILENT check: a SILENT reliable descriptor still
receives a CCI_ETIMEDOUT completion event there. -/
theorem claim_C2_repeated_send_events :
    Sock.cci_reliable CCI.ConnAttr.RO = true
  ∧ Sock.is_reliable CCI.ConnAttr.RO = false
  ∧ Sock.sock_sendv CCI.ConnAttr.RO true 0 8 128 true [3]
      = { result := CCI.Status.SUCCESS, txQueued := true, idleTxs := [] }
  ∧ Sock.sock_progress_queued_tx 1 1 0 1000 CCI.ConnAttr.RO true
      { msgType := Sock.SockMsgType.SEND, flags := 0, cycles := 0, resends := 0,
        state := Sock.TxState.QUEUED }
      = { tx := { msgType := Sock.SockMsgType.SEND, flags := 0, cycles := 1,
                  resends := 1, state := Sock.TxState.COMPLETED },
          removedFromQueued := false, reinsertedAtHead := false,
          passAborted := false, addedToPending := false, returnedToIdle := false,
          eventsQueued := 1 }
  ∧ Sock.sock_progress_queued_tx 1 1 0 1000 CCI.ConnAttr.RO true
      { msgType := Sock.SockMsgType.SEND, flags := 0, cycles := 1, resends := 1,
        state := Sock.TxState.COMPLETED }
      = { tx := { msgType := Sock.SockMsgType.SEND, flags := 0, cycles := 2,
                  resends := 2, state := Sock.TxState.COMPLETED },
          removedFromQueued := false, reinsertedAtHead := false,
          passAborted := false, addedToPending := false, returnedToIdle := false,
          eventsQueued := 1 }
  ∧ Sock.sock_progress_pending_tx 1000 0 true
      { msgType := Sock.SockMsgType.SEND, flags := CCI.CCI_FLAG_SILENT,
        cycles := 0, resends := 0, state := Sock.TxState.PENDING }
      = { tx := { msgType := Sock.SockMsgType.SEND, flags := CCI.CCI_FLAG_SILENT,
                  cycles := 1, resends := 1, state := Sock.TxState.PENDING },
          removedFromPending := true, eventStatus := some CCI.Status.ETIMEDOUT,
          passAborted := false } := by
  decide

/-- C3: the claim says that after the progress engine writes a queued UU
descriptor to the wire it is dropped from the send queues with its
completion event queued.  One sock_progress_queued iteration on a UU SEND
descriptor (first eligible cycle, write succeeds, no timeout) queues the
completion event but leaves the descriptor on the device queued list: the
TAILQ_REMOVE is commented out under a FIXME, so removedFromQueued is
false. -/
theorem claim_C3_uu_tx_not_dequeued :
    Sock.sock_progress_queued_tx 1 1 0 1000 CCI.ConnAttr.UU true
      { msgType := Sock.SockMsgType.SEND, flags := 0, cycles := 0, resends := 0,
        state := Sock.TxState.QUEUED }
      = { tx := { msgType := Sock.SockMsgType.SEND, flags := 0, cycles := 1,
                  resends := 1, state := Sock.TxState.COMPLETED },
          removedFromQueued := false, reinsertedAtHead := false,
          passAborted := false, addedToPending := false, returnedToIdle := false,
          eventsQueued := 1 } := by
  decide

/-- C4: the claim says both progress passes use the connection send timeout
when non-zero and the endpoint send timeout otherwise.  The queued pass
does (sock_timeout); the pending pass instead expires a descriptor when its
resend count reaches EITHER timeout value, so with the default connection
timeout 0 and endpoint timeout 1000 the very first pending pass completes
the descriptor with CCI_ETIMEDOUT (resends = 1 is at least 0) although the
claimed effective timeout 1000 is not remotely reached, while the queued
pass under the same values does not expire it. -/
theorem claim_C4_pending_ignores_timeout_rule :
    Sock.sock_timeout 0 1000 = 1000
  ∧ Sock.sock_progress_pending_tx 1000 0 true
      { msgType := Sock.SockMsgType.SEND, flags := 0, cycles := 0, resends := 0,
        state := Sock.TxState.PENDING }
      = { tx := { msgType := Sock.SockMsgType.SEND, flags := 0, cycles := 1,
                  resends := 1, state := Sock.TxState.PENDING },
          removedFromPending := true, eventStatus := some CCI.Status.ETIMEDOUT,
          passAborted := false }
  ∧ (Sock.sock_progress_queued_tx 1 1 0 1000 CCI.ConnAttr.RU true
      { msgType := Sock.SockMsgType.SEND, flags := 0, cycles := 0, resends := 0,
        state := Sock.TxState.QUEUED }).eventsQueued = 0
  ∧ ¬ (1 ≥ Sock.sock_timeout 0 1000) := by
  decide

/-- C5: for sends on reliable (RO or RU) connections and for connect(), a
TX descriptor is allocated from the per-endpoint idle pool and the call
fails with CCI_ENOBUFS, leaving the idle pool, the ID bitmap and the device
queue unchanged, exactly when the idle-TX pool is empty.  Since the ret ==
0 early return of the unreliable path is dead code, every send reaches the
allocator regardless of the attribute classification; the statement assumes
the segment lengths fit max_send_size and (for the path through the
temporary buffer) that its calloc succeeds. -/
theorem claim_C5_idle_pool_enobufs (a : CCI.ConnAttr) (hl dl mss : Nat)
    (idle ids : List Nat) (n : Nat)
    (_hrel : Sock.cci_reliable a = true) (hsz : hl + dl ≤ mss) :
    ((Sock.sock_sendv a true hl dl mss true idle).result
        = CCI.Status.ENOBUFS ↔ idle = [])
  ∧ (idle = [] → Sock.sock_sendv a true hl dl mss true idle
        = { result := CCI.Status.ENOBUFS, txQueued := false, idleTxs := [] })
  ∧ ((Sock.sock_connect true n idle ids).result = some CCI.Status.ENOBUFS ↔ idle = [])
  ∧ (idle = [] → Sock.sock_connect true n idle ids
        = { result := some CCI.Status.ENOBUFS, idleTxs := [], ids := ids,
            queuedTx := false }) := by
  have hlt : ¬ (mss < hl + dl) := by omega
  refine ⟨?_, ?_, ?_, ?_⟩
  · cases idle with
    | nil => simp [Sock.sock_sendv, hlt]
    | cons t rest => simp [Sock.sock_sendv, hlt]
  · intro h
    subst h
    simp [Sock.sock_sendv, hlt]
  · cases idle with
    | nil => simp [Sock.sock_connect]
    | cons t rest =>
      cases hstep : Sock.sock_get_id_step ids n with
      | none => simp [Sock.sock_connect, hstep]
      | some p => simp [Sock.sock_connect, hstep]
  · intro h
    subst h
    simp [Sock.sock_connect]

/-- C5 witness: the statement evaluated for an RO send (the reliable
attribute that also traverses the unreliable direct-write path first) and a
connect() on an endpoint whose idle-TX pool is empty. -/
theorem claim_C5_witness :
    Sock.sock_sendv CCI.ConnAttr.RO true 0 8 128 true []
      = { result := CCI.Status.ENOBUFS, txQueued := false, idleTxs := [] }
  ∧ Sock.sock_connect true 1 [] [0]
      = { result := some CCI.Status.ENOBUFS, idleTxs := [], ids := [0],
          queuedTx := false } :=
  ⟨(claim_C5_idle_pool_enobufs CCI.ConnAttr.RO 0 8 128 [] [0] 1
      (by decide) (by decide)).2.1 rfl,
   (claim_C5_idle_pool_enobufs CCI.ConnAttr.RO 0 8 128 [] [0] 1
      (by decide) (by decide)).2.2.2 rfl⟩

/-- C6 counterexample: the claim says a MSG arriving while the free event
list is exhausted makes the receiver reply with an RNR NACK carrying the
problematic sequence.  Evaluating ccieth__recv_msg on an endpoint with no
free events shows it transmits nothing at all: no RNR NACK with the
packet's sequence number (5) is among the emitted replies. -/
theorem claim_C6_counterexample :
    ¬ (Ccieth.WirePacket.rnrNack 5 ∈
        (Ccieth.ccieth__recv_msg 2 { maxSendSize := 4, freeEvents := 0, events := [] }
          { status := Ccieth.ConnStatus.READY, attr := Ccieth.ConnectAttr.RU,
            userConnId := 7, deferredRx := [] }
          { dstEpId := 0, dstConnId := 0, msgSeqnum := 5, msgLen := 2 }
          [9, 9, 5, 6]).replies) := by
  decide

/-- C6 amended: when a MSG packet arrives and the receive-side free event
list is exhausted, the receiver drops the packet and returns -ENOMEM,
leaving the event queue unchanged and sending no reply (in particular no
RNR NACK), so the sender is never told to retry for RNR. -/
theorem claim_C6_drop_no_nack (hdrSize : Nat) (ep : Ccieth.Ep)
    (conn : Ccieth.Conn) (hdr : Ccieth.MsgHdr) (skb : List Nat)
    (hfree : ep.freeEvents = 0) :
    Ccieth.ccieth__recv_msg hdrSize ep conn hdr skb
      = { ret := -Ccieth.ENOMEM, ep := some ep, conn := some conn, replies := [],
          bugTripped := false } := by
  simp [Ccieth.ccieth__recv_msg, hfree]

/-- C6 witness: the amended statement evaluated at a concrete endpoint with
an exhausted free event list. -/
theorem claim_C6_witness :
    Ccieth.ccieth__recv_msg 2 { maxSendSize := 4, freeEvents := 0, events := [] }
      { status := Ccieth.ConnStatus.READY, attr := Ccieth.ConnectAttr.RU,
        userConnId := 7, deferredRx := [] }
      { dstEpId := 0, dstConnId := 0, msgSeqnum := 5, msgLen := 2 } [9, 9, 5, 6]
      = { ret := -Ccieth.ENOMEM,
          ep := some { maxSendSize := 4, freeEvents := 0, events := [] },
          conn := some { status := Ccieth.ConnStatus.READY,
                         attr := Ccieth.ConnectAttr.RU, userConnId := 7,
                         deferredRx := [] },
          replies := [], bugTripped := false } :=
  claim_C6_drop_no_nack 2 { maxSendSize := 4, freeEvents := 0, events := [] }
    { status := Ccieth.ConnStatus.READY, attr := Ccieth.ConnectAttr.RU,
      userConnId := 7, deferredRx := [] }
    { dstEpId := 0, dstConnId := 0, msgSeqnum := 5, msgLen := 2 } [9, 9, 5, 6] rfl

/-- C7: an incoming MSG is delivered as a RECV event only when the
connection status is READY (any delivery changes the endpoint, and the
endpoint is untouched on every non-READY branch); a MSG that passes the
length checks for a UU connection still in REQUESTED is appended to the
deferred-RX list with no event; and a MSG for a connection in any other
state is dropped with -EINVAL, producing no event and touching nothing. -/
theorem claim_C7_msg_dispatch (hdrSize : Nat) (ep : Ccieth.Ep)
    (conn : Ccieth.Conn) (hdr : Ccieth.MsgHdr) (skb : List Nat) :
    ((Ccieth.ccieth_recv_msg hdrSize (some ep) (some conn) hdr skb).ep ≠ some ep →
        conn.status = Ccieth.ConnStatus.READY)
  ∧ (conn.status = Ccieth.ConnStatus.REQUESTED →
     conn.attr = Ccieth.ConnectAttr.UU →
     hdr.msgLen ≤ ep.maxSendSize → hdrSize + hdr.msgLen ≤ skb.length →
        Ccieth.ccieth_recv_msg hdrSize (some ep) (some conn) hdr skb
          = { ret := 0, ep := some ep,
              conn := some { conn with deferredRx := conn.deferredRx ++ [skb] },
              replies := [], bugTripped := false })
  ∧ (conn.status ≠ Ccieth.ConnStatus.READY →
     ¬ (conn.status = Ccieth.ConnStatus.REQUESTED ∧
        conn.attr = Ccieth.ConnectAttr.UU) →
        Ccieth.ccieth_recv_msg hdrSize (some ep) (some conn) hdr skb
          = { ret := -Ccieth.EINVAL, ep := some ep, conn := some conn,
              replies := [], bugTripped := false }) := by
  refine ⟨?_, ?_, ?_⟩
  · intro hne
    by_contra hstat
    exact hne (ccieth_recv_msg_ep_unchanged_of_not_ready hdrSize ep conn hdr skb hstat)
  · intro hreq hUU hlen1 hlen2
    simp only [Ccieth.ccieth_recv_msg]
    rw [if_neg (by omega)]
    rw [if_neg (by push_neg; omega)]
    rw [if_neg (by simp [hreq])]
    rw [if_pos ⟨hreq, hUU⟩]
  · intro hnready hnreq
    simp only [Ccieth.ccieth_recv_msg]
    split_ifs with h1 h2 <;> rfl

/-- C7 witness: the dispatch evaluated for a MSG that passes the length
checks on a UU connection still in REQUESTED: the skb is parked on the
deferred-RX list and no event is produced. -/
theorem claim_C7_witness :
    Ccieth.ccieth_recv_msg 2
      (some { maxSendSize := 4, freeEvents := 1, events := [] })
      (some { status := Ccieth.ConnStatus.REQUESTED, attr := Ccieth.ConnectAttr.UU,
              userConnId := 7, deferredRx := [] })
      { dstEpId := 0, dstConnId := 0, msgSeqnum := 5, msgLen := 2 } [9, 9, 5, 6]
      = { ret := 0,
          ep := some { maxSendSize := 4, freeEvents := 1, events := [] },
          conn := some { status := Ccieth.ConnStatus.REQUESTED,
                         attr := Ccieth.ConnectAttr.UU, userConnId := 7,
                         deferredRx := [[9, 9, 5, 6]] },
          replies := [], bugTripped := false } :=
  (claim_C7_msg_dispatch 2 { maxSendSize := 4, freeEvents := 1, events := [] }
    { status := Ccieth.ConnStatus.REQUESTED, attr := Ccieth.ConnectAttr.UU,
      userConnId := 7, deferredRx := [] }
    { dstEpId := 0, dstConnId := 0, msgSeqnum := 5, msgLen := 2 }
    [9, 9, 5, 6]).2.1 rfl rfl (by decide) (by decide)

/-- C8: the claim says connect() accepts a URI of the transport's form,
resolves its host component, and rejects other schemes with CCI_EINVAL.
The sock transport only accepts the literal scheme ip:// (the sock://
form that the CCI tests use is rejected with CCI_EINVAL), and the hostname
it hands to the resolver still carries the :port suffix, because the code
assigns the null character to the colon POINTER instead of writing through
it: the string handed to getaddrinfo for ip://foo:2211 is foo:2211, not the
host component foo. -/
theorem claim_C8_uri_handling :
    Sock.sock_getaddrinfo_hostname
        ['s', 'o', 'c', 'k', ':', '/', '/', 'f', 'o', 'o', ':', '2', '2', '1', '1']
      = Except.error CCI.Status.EINVAL
  ∧ Sock.sock_getaddrinfo_hostname
        ['i', 'p', ':', '/', '/', 'f', 'o', 'o', ':', '2', '2', '1', '1']
      = Except.ok ['f', 'o', 'o', ':', '2', '2', '1', '1']
  ∧ Sock.uri_host_component
        ['i', 'p', ':', '/', '/', 'f', 'o', 'o', ':', '2', '2', '1', '1']
      = ['f', 'o', 'o']
  ∧ (['f', 'o', 'o', ':', '2', '2', '1', '1'] : List Char) ≠ ['f', 'o', 'o'] := by
  refine ⟨?_, ?_, by decide, by decide⟩
  · unfold Sock.sock_getaddrinfo_hostname
    rw [if_neg (by decide)]
  · unfold Sock.sock_getaddrinfo_hostname
    rw [if_pos (by decide)]
    rfl

/-- C9: the claim says allocating an ID sets exactly the bit of the
returned ID, freeing clears exactly that bit, and the assert in the free
path holds for every ID the allocator returned.  On a fresh zeroed bitmap
the draw n = 1 allocates ID 1 and sets bit 1 (block word 2), and the
free-path assert condition, written (*b AND (1 << offset)) == 1, evaluates
to false there (the masked value is 2, compared against the constant 1), so
the assert fails for an ID the allocator just returned; the clearing write
itself does restore the zero word.  At offset 31 the int-typed mask
sign-extends, so a single allocation sets bits 31..63 of the block word
(the word becomes 18446744071562067968, i.e. 0xFFFFFFFF80000000) rather
than exactly one bit. -/
theorem claim_C9_put_id_assert_fails :
    Sock.sock_get_id_step [0] 1 = some ([2], 1)
  ∧ Sock.sock_put_id_assert [2] 1 = false
  ∧ Sock.sock_put_id [2] 1 = [0]
  ∧ Sock.sock_get_id_step [0] 31 = some ([18446744071562067968], 31) := by
  decide

/-- C10: the MSG receive path copies payload into an event buffer only
after checking that the declared length fits max_send_size and that the
frame really contains header plus payload; packets failing either check are
dropped before any copy, so skb_copy_bits never fails and the BUG_ON after
it in ccieth__recv_msg is unreachable: over all inputs the dispatch never
trips the BUG_ON, and whenever it changes the endpoint (i.e. delivers) both
length checks held. -/
theorem claim_C10_copy_guarded (hdrSize : Nat) (ep : Ccieth.Ep)
    (connOpt : Option Ccieth.Conn) (hdr : Ccieth.MsgHdr) (skb : List Nat) :
    (Ccieth.ccieth_recv_msg hdrSize (some ep) connOpt hdr skb).bugTripped = false
  ∧ ((Ccieth.ccieth_recv_msg hdrSize (some ep) connOpt hdr skb).ep ≠ some ep →
        hdr.msgLen ≤ ep.maxSendSize ∧ hdrSize + hdr.msgLen ≤ skb.length) := by
  cases connOpt with
  | none =>
    simp only [Ccieth.ccieth_recv_msg]
    split_ifs <;> exact ⟨rfl, fun hne => absurd rfl hne⟩
  | some conn =>
    simp only [Ccieth.ccieth_recv_msg]
    split_ifs with h1 h2 h3 h4
    · exact ⟨rfl, fun hne => absurd rfl hne⟩
    · exact ⟨rfl, fun hne => absurd rfl hne⟩
    · push_neg at h2
      simp only [Ccieth.ccieth__recv_msg, Ccieth.skb_copy_bits]
      split_ifs with h5 h6
      · exact ⟨rfl, fun hne => absurd rfl hne⟩
      · exact ⟨rfl, fun _ => ⟨h2.1, h2.2⟩⟩
      · exact absurd h2.2 h6
    · exact ⟨rfl, fun hne => absurd rfl hne⟩
    · exact ⟨rfl, fun hne => absurd rfl hne⟩

/-- C10 witness: the guarded copy evaluated for a frame of four bytes
carrying a two-byte payload behind a two-byte header on a READY connection:
the BUG_ON does not trip, and from the delivery the length checks are
recovered. -/
theorem claim_C10_witness :
    (Ccieth.ccieth_recv_msg 2
        (some { maxSendSize := 4, freeEvents := 1, events := [] })
        (some { status := Ccieth.ConnStatus.READY, attr := Ccieth.ConnectAttr.RU,
                userConnId := 7, deferredRx := [] })
        { dstEpId := 0, dstConnId := 0, msgSeqnum := 5, msgLen := 2 }
        [9, 9, 5, 6]).bugTripped = false
  ∧ ((2 : Nat) ≤ 4 ∧ 2 + 2 ≤ 4) :=
  ⟨(claim_C10_copy_guarded 2 { maxSendSize := 4, freeEvents := 1, events := [] }
      (some { status := Ccieth.ConnStatus.READY, attr := Ccieth.ConnectAttr.RU,
              userConnId := 7, deferredRx := [] })
      { dstEpId := 0, dstConnId := 0, msgSeqnum := 5, msgLen := 2 }
      [9, 9, 5, 6]).1,
   (claim_C10_copy_guarded 2 { maxSendSize := 4, freeEvents := 1, events := [] }
      (some { status := Ccieth.ConnStatus.READY, attr := Ccieth.ConnectAttr.RU,
              userConnId := 7, deferredRx := [] })
      { dstEpId := 0, dstConnId := 0, msgSeqnum := 5, msgLen := 2 }
      [9, 9, 5, 6]).2 (by decide)⟩
